import Mathlib

/-!
Verification of the mcp-noob-tutor request pipeline.

Shallow embedding of the repository's core logic:
- `src/tutor/tutorPolicy.ts` (tutor policy engine: defaults, anti-vibe
  guardrails, hint-ladder attachment),
- `src/mcp/mcpController.ts` (dispatcher / unknown-tool path),
- `src/mcp/tools/nextTopic.tool.ts` (topic sequencer),
- `src/tutor/diagnostics/diagnostics.ts` (gap classifier),
- `src/tutor/curriculum/topicGraph.ts` / `tracks.ts` (static tables).

JavaScript strings are modelled as Lean `String` (lists of characters);
the handful of JS string primitives the code uses (`split('\n')`,
`trim`, `startsWith`, `endsWith`, `includes`, `match(/x/g).length`,
`toLowerCase`) are given executable embeddings below. The two places the
code compares floating-point quotients (`count / max(1, lines) > 0.35`
and `unknowns > length / 2`) are modelled as exact rational comparisons
(`100 * count > 35 * max 1 lines`, `2 * unknowns > length`); for every
string a JS engine can actually hold the float comparison and the exact
rational comparison agree, since the quotients can only straddle the
rounding error of the literal at denominators far beyond the maximum JS
string length.
-/

set_option maxRecDepth 40000

/-! ## JS string primitives -/

/-- `text.split('\n')` on the character list: always returns at least one
(possibly empty) piece, exactly like the JS `String.prototype.split`. -/
def splitOnNl : List Char → List (List Char)
  | [] => [[]]
  | c :: cs =>
    match splitOnNl cs with
    | [] => [[]]
    | l :: ls => if c = '\n' then [] :: l :: ls else (c :: l) :: ls

/-- Whitespace recognized by JS `String.prototype.trim` (the characters that
can actually occur in this code base's strings). -/
def isJsWs (c : Char) : Bool :=
  c = ' ' || c = '\t' || c = '\n' || c = '\r' || c = '\x0b' || c = '\x0c'

/-- `line.trim()`: drop whitespace from both ends. -/
def jsTrim (l : List Char) : List Char :=
  ((l.dropWhile isJsWs).reverse.dropWhile isJsWs).reverse

/-- `(text.match(/```/g) ?? []).length`: count non-overlapping occurrences
of three backticks, scanning left to right exactly like the global regex. -/
def countTripleBackticks : List Char → Nat
  | c1 :: c2 :: c3 :: rest =>
    if c1 = '\x60' ∧ c2 = '\x60' ∧ c3 = '\x60' then
      countTripleBackticks rest + 1
    else
      countTripleBackticks (c2 :: c3 :: rest)
  | _ => 0

/-- ASCII case folding; agrees with JS `toLowerCase` on every string the
classifier's keyword tests can distinguish (all keywords are ASCII). -/
def jsCharLower (c : Char) : Char :=
  if 'A' ≤ c ∧ c ≤ 'Z' then Char.ofNat (c.toNat + 32) else c

/-- `s.toLowerCase()`. -/
def jsToLower (s : String) : String :=
  ⟨s.data.map jsCharLower⟩

/-! ## Tutor policy data model (`src/shared/types.ts`, `tutorPolicy.ts`) -/

inductive LearnerLevel where
  | beginner
  | intermediate
deriving DecidableEq

structure HintLadder where
  level : Nat
  guidance : String
deriving DecidableEq

/-- The `output` field of an `MCPResponse` is `unknown` in TypeScript. The
policy engine only ever observes it through `stringifyOutput`, so a non-null,
non-string value is carried together with its `JSON.stringify(value, null, 2)`
rendering:
- `onull` models `null`/`undefined` (rendered as the empty string),
- `ostr` models a string output (passed through verbatim),
- `oobj` models any other serializable value, represented by its rendering,
- `oredirect` is the guardrail's replacement object
  `\x7b message, nextSteps, originalSummary \x7d`, rendered by
  `renderRedirectJson` below. -/
inductive OutputVal where
  | onull
  | ostr (s : String)
  | oobj (rendered : String)
  | oredirect (message : String) (nextSteps : List String) (originalSummary : String)
deriving DecidableEq

structure MCPResponse where
  output : OutputVal
  checkpoints : List String
  tutorNotes : Option String
  hintLadder : Option HintLadder
deriving DecidableEq

structure TutorPolicyContext where
  toolName : String
  learnerLevel : LearnerLevel
deriving DecidableEq

def DEFAULT_CHECKPOINTS : List String :=
  ["Before you continue: what is the input and output of what you\x27re building?",
   "What is the smallest next step you can take to verify you\x27re on the right track?",
   "What edge case could break your approach?"]

def DEFAULT_TUTOR_NOTES : String :=
  "Answer the checkpoints first. If you want more help, tell me what you tried and what happened."

/-- Truthiness of `res.tutorNotes?.trim()`: `undefined` and all-whitespace
strings are falsy. -/
def isBlankNote : Option String → Bool
  | none => true
  | some s => (jsTrim s.data).isEmpty

/-- `ensureDefaults` (tutorPolicy.ts:86-95). -/
def ensureDefaults (res : MCPResponse) : MCPResponse :=
  { res with
    checkpoints :=
      if 0 < res.checkpoints.length then res.checkpoints else DEFAULT_CHECKPOINTS
    tutorNotes :=
      if isBlankNote res.tutorNotes then some DEFAULT_TUTOR_NOTES else res.tutorNotes }

/-- One escaped character of `JSON.stringify` (the fixed strings this model
renders contain none of the escapable characters, but the table keeps the
rendering honest on the ones that could appear in a line-count). -/
def jsonEscapeChar (c : Char) : List Char :=
  if c = '"' then ['\\', '"']
  else if c = '\\' then ['\\', '\\']
  else if c = '\n' then ['\\', 'n']
  else if c = '\r' then ['\\', 'r']
  else if c = '\t' then ['\\', 't']
  else [c]

/-- A JSON string literal: quotes around the escaped characters. -/
def jsonStr (s : String) : String :=
  "\"" ++ ⟨s.data.foldr (fun c acc => jsonEscapeChar c ++ acc) []⟩ ++ "\""

/-- `JSON.stringify(\x7b message, nextSteps, originalSummary \x7d, null, 2)`:
the two-space-indented rendering of the guardrail's replacement object. -/
def renderRedirectJson (message : String) (nextSteps : List String) (summary : String) : String :=
  "\x7b\n  \"message\": " ++ jsonStr message ++ ",\n  \"nextSteps\": " ++
    (match nextSteps with
     | [] => "[]"
     | s :: rest =>
       "[\n    " ++ jsonStr s ++
         String.join (rest.map (fun x => ",\n    " ++ jsonStr x)) ++ "\n  ]") ++
  ",\n  \"originalSummary\": " ++ jsonStr summary ++ "\n\x7d"

/-- `stringifyOutput` (tutorPolicy.ts:171-179). -/
def stringifyOutput : OutputVal → String
  | .onull => ""
  | .ostr s => s
  | .oobj rendered => rendered
  | .oredirect m ns summary => renderRedirectJson m ns summary

/-- A trimmed, non-blank line "looks like code"
(tutorPolicy.ts:203-213). -/
def isCodeLikeLine (l : List Char) : Bool :=
  decide ("import ".data <+: l) || decide ("export ".data <+: l) ||
  decide ("const ".data <+: l) || decide ("let ".data <+: l) ||
  decide ("function ".data <+: l) ||
  decide ("=>".data <:+: l) ||
  decide ("\x7b".data <:+ l) || decide ("\x7d;".data <:+ l) ||
  decide (";".data <:+: l)

/-- The `for`-loop of `countCodeLikeLines`: blank lines are skipped, a
code-looking trimmed line bumps the count. -/
def countCodeLikeLinesAux : List (List Char) → Nat
  | [] => 0
  | l :: rest =>
    if (jsTrim l).isEmpty then countCodeLikeLinesAux rest
    else if isCodeLikeLine (jsTrim l) then countCodeLikeLinesAux rest + 1
    else countCodeLikeLinesAux rest

/-- `countCodeLikeLines` (tutorPolicy.ts:194-219). -/
def countCodeLikeLines (text : String) : Nat :=
  countCodeLikeLinesAux (splitOnNl text.data)

/-- `text.match(/```/g)` count, as used for `codeBlockCount`. -/
def codeBlockCount (text : String) : Nat :=
  countTripleBackticks text.data

/-- `text.split('\n').length`. -/
def lineCount (text : String) : Nat :=
  (splitOnNl text.data).length

/-- The guardrail trigger (tutorPolicy.ts:124-128). The float comparison
`countCodeLikeLines(text) / Math.max(1, lineCount) > 0.35` is modelled as the
exact rational comparison `100 * count > 35 * max 1 lineCount`. -/
def suspicious (text : String) : Prop :=
  (codeBlockCount text ≥ 2 ∧ lineCount text > 60) ∨
  (lineCount text > 120 ∧ 100 * countCodeLikeLines text > 35 * max 1 (lineCount text))

instance (text : String) : Decidable (suspicious text) := by
  unfold suspicious; exact inferInstance

/-- `summarizeForLearner` (tutorPolicy.ts:227-234). -/
def summarizeForLearner (toolName : String) : String :=
  if toolName = "explain_concept" then
    "Concept explanations should be short, with checkpoints and examples only after you answer."
  else
    "We’ll proceed step-by-step with checkpoints before code."

def solutionDumpMessage : String :=
  "I’m not going to dump a full solution. Let’s break this into smaller steps so you learn it instead of copy/paste."

def redirectNextSteps : List String :=
  ["Tell me what you’re building (inputs/outputs).",
   "Show me your current attempt (even if it’s messy).",
   "I’ll give Hint 2 (pseudocode) based on your attempt."]

def redirectCheckpoints : List String :=
  ["What have you tried so far? Paste the smallest relevant snippet.",
   "What do you expect to happen, and what actually happened?",
   "What part feels confusing: setup, logic, or debugging?"]

def guardrailTutorNotes : String :=
  "This guardrail kicked in because the response looked like a large solution dump. We’ll proceed with a hint ladder instead."

def redirectHintLadder : HintLadder :=
  { level := 1
    guidance := "Start with a plan + checkpoints. Ask for Hint 2 with your attempt." }

/-- The wholesale replacement returned when the guardrail fires
(tutorPolicy.ts:141-164). -/
def redirectResponse (toolName : String) : MCPResponse :=
  { output := .oredirect solutionDumpMessage redirectNextSteps (summarizeForLearner toolName)
    checkpoints := redirectCheckpoints
    tutorNotes := some guardrailTutorNotes
    hintLadder := some redirectHintLadder }

/-- `applyAntiVibeGuardrails` (tutorPolicy.ts:114-164). -/
def applyAntiVibeGuardrails (res : MCPResponse) (ctx : TutorPolicyContext) : MCPResponse :=
  if suspicious (stringifyOutput res.output) then redirectResponse ctx.toolName else res

def defaultHintLadder : HintLadder :=
  { level := 1
    guidance := "High-level guidance only. Ask for Hint 2/3 if you get stuck and share your attempt." }

/-- `applyTutorPolicy` (tutorPolicy.ts:60-78). -/
def applyTutorPolicy (raw : MCPResponse) (ctx : TutorPolicyContext) : MCPResponse :=
  { applyAntiVibeGuardrails (ensureDefaults raw) ctx with
    hintLadder :=
      some ((applyAntiVibeGuardrails (ensureDefaults raw) ctx).hintLadder.getD defaultHintLadder) }

/-! ## Dispatcher model (`src/mcp/mcpController.ts`, `toolRegistry`) -/

structure ToolContext where
  learnerLevel : LearnerLevel
  previousTopics : List String
deriving DecidableEq

/-- A registered tool (`MCPTool` in `toolRegistry`); `execute` is pure and
synchronous — every handler of this core computes over in-memory tables. -/
structure MCPTool (α : Type) where
  name : String
  execute : α → ToolContext → MCPResponse

structure UserContext where
  learnerLevel : Option LearnerLevel
  previousTopics : Option (List String)
deriving DecidableEq

structure MCPRequest (α : Type) where
  toolName : String
  input : α
  userContext : Option UserContext

/-- `handleMCPRequest` (mcpController.ts:14-51). The process-wide registry is
populated once at startup and only read during dispatch, so it is supplied as
a read-only lookup function (the `getTool` of `toolRegistry`). -/
def handleMCPRequest {α : Type} (getTool : String → Option (MCPTool α))
    (req : MCPRequest α) : MCPResponse :=
  match getTool req.toolName with
  | none =>
    { output := .onull
      checkpoints := []
      tutorNotes := some ("Unknown tool: " ++ req.toolName)
      hintLadder := none }
  | some tool =>
    let ctx : ToolContext :=
      { learnerLevel := ((req.userContext.bind fun u => u.learnerLevel).getD .beginner)
        previousTopics := ((req.userContext.bind fun u => u.previousTopics).getD []) }
    applyTutorPolicy (tool.execute req.input ctx)
      { toolName := req.toolName, learnerLevel := ctx.learnerLevel }

/-! ## Curriculum tables and topic sequencer
(`src/tutor/curriculum/topicGraph.ts`, `tracks.ts`, `nextTopic.tool.ts`) -/

/-- The keys of the static `TOPICS` record. -/
def TOPIC_IDS : List String :=
  ["internet_basics", "http_basics", "dns_hosting", "browser_request_lifecycle",
   "git_basics", "html_semantics", "css_layout", "js_fundamentals", "dom_basics",
   "fetch_ajax", "ts_fundamentals", "api_rest_basics", "openapi_basics",
   "auth_basics", "sql_basics", "db_normalization", "transactions_acid",
   "indexes_query_plans", "testing_basics", "ci_cd_basics", "security_basics",
   "cors_basics", "tls_basics", "caching_basics", "observability_basics",
   "queues_basics", "ddd_basics", "cqrs_basics"]

/-- `isTopicId` (topicGraph.ts): `hasOwnProperty` on the `TOPICS` record. -/
def isTopicId (v : String) : Bool :=
  TOPIC_IDS.contains v

def TRACKS_foundation : List String :=
  ["internet_basics", "http_basics", "dns_hosting", "browser_request_lifecycle",
   "git_basics"]

def TRACKS_frontend : List String :=
  ["html_semantics", "css_layout", "js_fundamentals", "dom_basics", "fetch_ajax",
   "ts_fundamentals", "cors_basics"]

def TRACKS_backend : List String :=
  ["sql_basics", "db_normalization", "transactions_acid", "api_rest_basics",
   "openapi_basics", "auth_basics", "indexes_query_plans"]

def TRACKS_fullstack : List String :=
  ["internet_basics", "http_basics", "git_basics", "html_semantics",
   "js_fundamentals", "api_rest_basics", "fetch_ajax", "auth_basics",
   "sql_basics", "testing_basics", "ci_cd_basics", "security_basics"]

/-- `pickNextTopic` (nextTopic.tool.ts:106-111): linear scan for the first
identifier not in the completed set. A JS `Set` is modelled by a list with
membership; only membership is observed. -/
def pickNextTopic (ordered : List String) (completed : List String) : Option String :=
  match ordered with
  | [] => none
  | tid :: rest => if tid ∈ completed then pickNextTopic rest completed else some tid

/-- The completed set built by `nextTopicTool.execute` (nextTopic.tool.ts:33-42):
`previousTopics` filtered to valid topic ids, with the self-reported
`currentTopic` unioned in when it is a truthy valid topic id. -/
def completedSetFor (previousTopics : List String) (currentTopic : Option String) :
    List String :=
  match currentTopic with
  | some t =>
    if t ≠ "" ∧ isTopicId t = true then
      previousTopics.filter (fun x => isTopicId x) ++ [t]
    else
      previousTopics.filter (fun x => isTopicId x)
  | none => previousTopics.filter (fun x => isTopicId x)

/-! ## Gap classifier (`src/tutor/diagnostics/diagnostics.ts`) -/

inductive GapType where
  | terminology
  | conceptual
  | application
  | unknown
deriving DecidableEq

structure AnswerAnalysis where
  questionId : Nat
  gap : GapType
  reasoning : String
deriving DecidableEq

inductive Confidence where
  | low
  | medium
  | high
deriving DecidableEq

structure AnalysisSummary where
  primaryGap : GapType
  confidence : Confidence
deriving DecidableEq

structure AssessmentAnalysisResult where
  topic : String
  analyses : List AnswerAnalysis
  summary : AnalysisSummary
deriving DecidableEq

def KEYWORD_MAP_terminology : List String := ["define", "term", "called", "means"]
def KEYWORD_MAP_conceptual : List String := ["why", "because", "difference", "purpose"]
def KEYWORD_MAP_application : List String := ["use", "example", "when", "how"]

/-- `containsAny` (diagnostics.ts:193-195): JS `String.prototype.includes` is
substring containment. -/
def containsAny (text : String) (words : List String) : Bool :=
  words.any fun w => decide (w.data <:+: text.data)

/-- The per-answer classification body of `analyzeAnswers`
(diagnostics.ts:156-178): gap and reasoning for one answer. -/
def classifyAnswer (a : String) : GapType × String :=
  if (jsToLower a).length < 15 then
    (.terminology, "Very short answer suggests missing definitions or vocabulary.")
  else if containsAny (jsToLower a) KEYWORD_MAP_application then
    (.application, "Answer references usage or examples but may lack structure.")
  else if containsAny (jsToLower a) KEYWORD_MAP_conceptual then
    (.conceptual, "Answer discusses relationships or reasoning but may miss clarity.")
  else
    (.unknown, "Answer was too short or vague to classify.")

/-- `countGap`: the per-category tally built by the `counts` record of
`pickPrimaryGap` (diagnostics.ts:198-207). -/
def countGap (g : GapType) (analyses : List AnswerAnalysis) : Nat :=
  (analyses.filter fun a => decide (a.gap = g)).length

/-- `Object.entries(counts).sort((a, b) => b[1] - a[1])[0][0]`
(diagnostics.ts:209): `counts` is built in insertion order
terminology, conceptual, application, unknown, and `Array.prototype.sort`
is stable, so the head of the descending sort is the leftmost entry with
the maximal count. `pick4` is that leftmost-maximum scan, unrolled: a later
entry replaces the current best only when strictly greater. -/
def pick4 (ct cc ca cu : Nat) : GapType :=
  if ct < cc then
    if cc < ca then (if ca < cu then .unknown else .application)
    else (if cc < cu then .unknown else .conceptual)
  else
    if ct < ca then (if ca < cu then .unknown else .application)
    else (if ct < cu then .unknown else .terminology)

/-- `pickPrimaryGap` (diagnostics.ts:197-210). -/
def pickPrimaryGap (analyses : List AnswerAnalysis) : GapType :=
  pick4 (countGap .terminology analyses) (countGap .conceptual analyses)
    (countGap .application analyses) (countGap .unknown analyses)

/-- `estimateConfidence` (diagnostics.ts:212-218). The float comparison
`unknowns > analyses.length / 2` is modelled exactly as
`2 * unknowns > length`. -/
def estimateConfidence (analyses : List AnswerAnalysis) : Confidence :=
  if analyses.length < 2 * (analyses.filter fun a => decide (a.gap = GapType.unknown)).length then .low
  else if 0 < (analyses.filter fun a => decide (a.gap = GapType.unknown)).length then .medium
  else .high

/-- `analyzeAnswers` (diagnostics.ts:155-191). -/
def analyzeAnswers (topic : String) (answers : List String) : AssessmentAnalysisResult :=
  let analyses := answers.enum.map fun p =>
    { questionId := p.1 + 1
      gap := (classifyAnswer p.2).1
      reasoning := (classifyAnswer p.2).2 : AnswerAnalysis }
  { topic := topic
    analyses := analyses
    summary :=
      { primaryGap := pickPrimaryGap analyses
        confidence := estimateConfidence analyses } }

/-- The fixed precedence order of the tie break: position of each category in
the insertion order of the `counts` record. -/
def gapRank : GapType → Nat
  | .terminology => 0
  | .conceptual => 1
  | .application => 2
  | .unknown => 3

/-- Category-indexed view of four tallies, for stating `pick4`'s spec. -/
def gapCount4 (ct cc ca cu : Nat) : GapType → Nat
  | .terminology => ct
  | .conceptual => cc
  | .application => ca
  | .unknown => cu

/-! ## Concrete inputs used by the guardrail and classifier claims -/

/-- `lines.join('\n')`: build a text with one entry per line. -/
def joinNl : List String → String
  | [] => ""
  | [s] => s
  | s :: rest => s ++ "\n" ++ joinNl rest

/-- 70 lines, the first and last a triple-backtick fence. -/
def exampleTwoFences : String :=
  joinNl ("\x60\x60\x60" :: (List.replicate 68 "x" ++ ["\x60\x60\x60"]))

/-- The same 70-line shape with only the opening fence. -/
def exampleOneFence : String :=
  joinNl ("\x60\x60\x60" :: List.replicate 69 "x")

/-- A bare tool response whose output is the given string. -/
def strOnlyResponse (s : String) : MCPResponse :=
  { output := .ostr s, checkpoints := [], tutorNotes := none, hintLadder := none }

def exCtx : TutorPolicyContext :=
  { toolName := "next_topic", learnerLevel := .beginner }

/-- The application-flavored sample answer from the spec's test table. -/
def exampleAnswerApplication : String :=
  "I use this when building APIs, for example in routing"

/-- Text with a blank middle line and two code-like lines: 3 newline-delimited
lines, 2 of them non-blank. -/
def exampleBlankLineText : String := "a;\n\nb;"

/-- The spec's wording of the code-like tally: the number of non-blank lines
matching at least one code signal (a `filter`/`length` phrasing, to compare
against the source's skip-and-increment loop). -/
def codeLikeLineCountSpec (text : String) : Nat :=
  ((splitOnNl text.data).filter fun l =>
    !(jsTrim l).isEmpty && isCodeLikeLine (jsTrim l)).length

/-- The number of non-blank lines of the rendered text (the denominator the
spec ascribes to `codeLikeRatio`). -/
def nonBlankLineCount (text : String) : Nat :=
  ((splitOnNl text.data).filter fun l => !(jsTrim l).isEmpty).length

/-- An always-empty registry, modelling a dispatch whose `toolName` is not
registered. -/
def emptyRegistry : String → Option (MCPTool Unit) := fun _ => none

/-- A request naming a tool that is not in the registry. -/
def unknownToolReq : MCPRequest Unit :=
  { toolName := "mystery_tool", input := (), userContext := none }

/-- A two-answer analysis list with a terminology/conceptual tie. -/
def exAnalyses : List AnswerAnalysis :=
  [{ questionId := 1, gap := .terminology, reasoning := "r1" },
   { questionId := 2, gap := .conceptual, reasoning := "r2" }]

/-- An answer whose lowercasing is 15 characters or longer and contains the
conceptual keyword `because` (and therefore the substring `use`). -/
def exampleAnswerBecause : String := "that is because of the thing"

/-! ## Helper lemmas -/

theorem countAux_eq_filter (ls : List (List Char)) :
    countCodeLikeLinesAux ls =
      (ls.filter fun l => !(jsTrim l).isEmpty && isCodeLikeLine (jsTrim l)).length := by
  induction ls with
  | nil => rfl
  | cons l rest ih =>
    by_cases h1 : (jsTrim l).isEmpty
    · simp [countCodeLikeLinesAux, List.filter, h1, ih]
    · by_cases h2 : isCodeLikeLine (jsTrim l) <;>
        simp [countCodeLikeLinesAux, List.filter, h1, h2, ih]

theorem stringify_ensureDefaults (r : MCPResponse) :
    stringifyOutput (ensureDefaults r).output = stringifyOutput r.output := rfl

theorem ensureDefaults_checkpoints_ne (r : MCPResponse) :
    (ensureDefaults r).checkpoints ≠ [] := by
  rcases h : r.checkpoints with _ | ⟨a, l⟩ <;> simp [ensureDefaults, h, DEFAULT_CHECKPOINTS]

theorem ensureDefaults_note_not_blank (r : MCPResponse) :
    isBlankNote (ensureDefaults r).tutorNotes = false := by
  by_cases h : isBlankNote r.tutorNotes = true
  · simp only [ensureDefaults, h, if_true]
    decide
  · simp only [ensureDefaults, h, if_false]
    simp_all

theorem ensureDefaults_of_normalized (r : MCPResponse) (hc : r.checkpoints ≠ [])
    (hn : isBlankNote r.tutorNotes = false) : ensureDefaults r = r := by
  unfold ensureDefaults
  rw [if_pos (List.length_pos.mpr hc), hn]
  rfl

theorem redirect_checkpoints_ne (tn : String) : (redirectResponse tn).checkpoints ≠ [] := by
  simp [redirectResponse, redirectCheckpoints]

theorem redirect_note_not_blank (tn : String) :
    isBlankNote (redirectResponse tn).tutorNotes = false := by
  show isBlankNote (some guardrailTutorNotes) = false
  decide

theorem redirect_not_suspicious (tn : String) :
    ¬ suspicious (stringifyOutput (redirectResponse tn).output) := by
  by_cases h : tn = "explain_concept"
  · subst h; decide
  · have hs : summarizeForLearner tn =
        "We’ll proceed step-by-step with checkpoints before code." := by
      simp [summarizeForLearner, h]
    show ¬ suspicious (renderRedirectJson solutionDumpMessage redirectNextSteps
      (summarizeForLearner tn))
    rw [hs]
    decide

theorem applyTutorPolicy_of_normalized (r : MCPResponse) (ctx : TutorPolicyContext)
    (hc : r.checkpoints ≠ []) (hn : isBlankNote r.tutorNotes = false)
    (hns : ¬ suspicious (stringifyOutput r.output)) (hl : r.hintLadder.isSome = true) :
    applyTutorPolicy r ctx = r := by
  rcases r with ⟨o, cps, notes, _ | x⟩
  · simp at hl
  · unfold applyTutorPolicy
    rw [ensureDefaults_of_normalized _ hc hn]
    unfold applyAntiVibeGuardrails
    rw [if_neg hns]
    rfl

theorem pickNextTopic_none_iff (ordered completed : List String) :
    pickNextTopic ordered completed = none ↔ ∀ t ∈ ordered, t ∈ completed := by
  induction ordered with
  | nil => simp [pickNextTopic]
  | cons a rest ih =>
    by_cases h : a ∈ completed <;> simp [pickNextTopic, h, ih]

theorem pickNextTopic_some (ordered completed : List String) (t : String) :
    pickNextTopic ordered completed = some t →
    t ∉ completed ∧ ∃ pre post, ordered = pre ++ t :: post ∧ ∀ x ∈ pre, x ∈ completed := by
  induction ordered with
  | nil => simp [pickNextTopic]
  | cons a rest ih =>
    intro h
    by_cases ha : a ∈ completed
    · simp only [pickNextTopic, if_pos ha] at h
      obtain ⟨hnot, pre, post, heq, hpre⟩ := ih h
      refine ⟨hnot, a :: pre, post, by rw [heq]; rfl, ?_⟩
      intro x hx
      rcases List.mem_cons.mp hx with rfl | hx'
      · exact ha
      · exact hpre x hx'
    · simp only [pickNextTopic, if_neg ha] at h
      injection h with h'
      subst h'
      exact ⟨ha, [], rest, rfl, by simp⟩

theorem mem_completedSetFor (prev : List String) (cur : String) (h1 : cur ≠ "")
    (h2 : isTopicId cur = true) : cur ∈ completedSetFor prev (some cur) := by
  simp [completedSetFor, h1, h2]

theorem enumFrom_gaps (n : Nat) (l : List String) :
    ((List.enumFrom n l).map fun p =>
        ({ questionId := p.1 + 1, gap := (classifyAnswer p.2).1,
           reasoning := (classifyAnswer p.2).2 } : AnswerAnalysis)).map AnswerAnalysis.gap
      = l.map fun a => (classifyAnswer a).1 := by
  induction l generalizing n with
  | nil => rfl
  | cons a t ih => simp [List.enumFrom, ih]

theorem pick4_spec (ct cc ca cu : Nat) :
    (∀ g, gapCount4 ct cc ca cu g ≤ gapCount4 ct cc ca cu (pick4 ct cc ca cu)) ∧
    (∀ g, gapCount4 ct cc ca cu g = gapCount4 ct cc ca cu (pick4 ct cc ca cu) →
      gapRank (pick4 ct cc ca cu) ≤ gapRank g) := by
  unfold pick4
  split_ifs with h1 h2 h3 h4 h5 h6 h7 <;>
    refine ⟨fun g => ?_, fun g hg => ?_⟩ <;>
    cases g <;>
    simp only [gapCount4, gapRank] at * <;>
    omega

/-! ## Claim theorems -/

/-- Claim C1: the Tutor Policy Engine's guardrail replaces the response
wholesale with the fixed redirect structure (fixed message, three fixed next
steps, per-tool `originalSummary`, three fixed reflection checkpoints, fixed
tutor note, hint-ladder level 1) exactly when
`(codeBlockCount ≥ 2 ∧ lineCount > 60) ∨ (lineCount > 120 ∧ codeLikeRatio > 0.35)`
holds of the rendered output text; a 70-line output with 2 triple-backtick
fences triggers it, and the same shape with only 1 fence does not. -/
theorem C1_guardrail_iff :
    (∀ (res : MCPResponse) (ctx : TutorPolicyContext),
      applyAntiVibeGuardrails res ctx =
        if suspicious (stringifyOutput res.output) then redirectResponse ctx.toolName
        else res) ∧
    (∀ text : String,
      suspicious text ↔
        ((codeBlockCount text ≥ 2 ∧ lineCount text > 60) ∨
         (lineCount text > 120 ∧
           100 * countCodeLikeLines text > 35 * max 1 (lineCount text)))) ∧
    (∀ tn : String,
      redirectResponse tn =
        { output := .oredirect solutionDumpMessage redirectNextSteps (summarizeForLearner tn)
          checkpoints := redirectCheckpoints
          tutorNotes := some guardrailTutorNotes
          hintLadder := some
            ⟨1, "Start with a plan + checkpoints. Ask for Hint 2 with your attempt."⟩ }) ∧
    codeBlockCount exampleTwoFences = 2 ∧
    lineCount exampleTwoFences = 70 ∧
    suspicious exampleTwoFences ∧
    applyAntiVibeGuardrails (strOnlyResponse exampleTwoFences) exCtx =
      redirectResponse "next_topic" ∧
    codeBlockCount exampleOneFence = 1 ∧
    lineCount exampleOneFence = 70 ∧
    ¬ suspicious exampleOneFence ∧
    applyAntiVibeGuardrails (strOnlyResponse exampleOneFence) exCtx =
      strOnlyResponse exampleOneFence := by
  refine ⟨fun _ _ => rfl, fun _ => Iff.rfl, fun _ => rfl, ?_, ?_, ?_, ?_, ?_, ?_, ?_, ?_⟩ <;>
    decide

/-- Claim C2: every response returned by `applyTutorPolicy` has non-empty
checkpoints and a present hint ladder; absent/empty checkpoints are replaced
by the fixed three-item default, absent/blank tutor notes by the fixed default
note, and a missing hint ladder (after guardrail processing) by the level-1
default. -/
theorem C2_policy_invariants :
    ∀ (raw : MCPResponse) (ctx : TutorPolicyContext),
      (applyTutorPolicy raw ctx).checkpoints ≠ [] ∧
      (applyTutorPolicy raw ctx).hintLadder.isSome = true ∧
      (ensureDefaults raw).checkpoints =
        (if raw.checkpoints = [] then DEFAULT_CHECKPOINTS else raw.checkpoints) ∧
      (ensureDefaults raw).tutorNotes =
        (if isBlankNote raw.tutorNotes then some DEFAULT_TUTOR_NOTES else raw.tutorNotes) ∧
      (applyTutorPolicy raw ctx).hintLadder =
        some ((applyAntiVibeGuardrails (ensureDefaults raw) ctx).hintLadder.getD
          defaultHintLadder) := by
  intro raw ctx
  refine ⟨?_, rfl, ?_, rfl, rfl⟩
  · show (applyAntiVibeGuardrails (ensureDefaults raw) ctx).checkpoints ≠ []
    unfold applyAntiVibeGuardrails
    split
    · exact redirect_checkpoints_ne _
    · exact ensureDefaults_checkpoints_ne _
  · rcases h : raw.checkpoints with _ | ⟨a, l⟩ <;> simp [ensureDefaults, h]

/-- Claim C3: the sequencer returns the first identifier of the track not in
the completed set, `none` when the track is exhausted, and a just-completed
topic identifier is unioned into the completed set before the scan, so it can
no longer be chosen. -/
theorem C3_sequencer :
    (∀ ordered completed : List String,
      (pickNextTopic ordered completed = none ↔ ∀ t ∈ ordered, t ∈ completed)) ∧
    (∀ (ordered completed : List String) (t : String),
      pickNextTopic ordered completed = some t →
      t ∉ completed ∧ ∃ pre post, ordered = pre ++ t :: post ∧ ∀ x ∈ pre, x ∈ completed) ∧
    (∀ (prev : List String) (cur : String), cur ≠ "" → isTopicId cur = true →
      ∀ ordered : List String,
        pickNextTopic ordered (completedSetFor prev (some cur)) ≠ some cur) := by
  refine ⟨pickNextTopic_none_iff, pickNextTopic_some, ?_⟩
  intro prev cur h1 h2 ordered hcontra
  exact (pickNextTopic_some ordered _ cur hcontra).1 (mem_completedSetFor prev cur h1 h2)

/-- Witness for C3 on the foundation track: with `internet_basics` completed
the scan picks `http_basics`, and a just-completed `git_basics` cannot be
chosen again. -/
theorem C3_sequencer_witness :
    ("http_basics" ∉ (["internet_basics"] : List String) ∧
      ∃ pre post, TRACKS_foundation = pre ++ "http_basics" :: post ∧
        ∀ x ∈ pre, x ∈ (["internet_basics"] : List String)) ∧
    pickNextTopic TRACKS_foundation (completedSetFor [] (some "git_basics")) ≠
      some "git_basics" :=
  ⟨C3_sequencer.2.1 TRACKS_foundation ["internet_basics"] "http_basics" (by decide),
   C3_sequencer.2.2 [] "git_basics" (by decide) (by decide) TRACKS_foundation⟩

/-- Claim C4: the classifier is the ordered decision list
length-below-15 → terminology, else application keywords → application,
else conceptual keywords → conceptual, else unknown; `"ok"` is terminology
and the sample application answer is application; and `analyzeAnswers`
classifies each answer by exactly this rule. -/
theorem C4_decision_list :
    (∀ a : String,
      ((jsToLower a).length < 15 → (classifyAnswer a).1 = GapType.terminology) ∧
      (¬ (jsToLower a).length < 15 →
        containsAny (jsToLower a) KEYWORD_MAP_application = true →
        (classifyAnswer a).1 = GapType.application) ∧
      (¬ (jsToLower a).length < 15 →
        containsAny (jsToLower a) KEYWORD_MAP_application = false →
        containsAny (jsToLower a) KEYWORD_MAP_conceptual = true →
        (classifyAnswer a).1 = GapType.conceptual) ∧
      (¬ (jsToLower a).length < 15 →
        containsAny (jsToLower a) KEYWORD_MAP_application = false →
        containsAny (jsToLower a) KEYWORD_MAP_conceptual = false →
        (classifyAnswer a).1 = GapType.unknown)) ∧
    (classifyAnswer "ok").1 = GapType.terminology ∧
    (classifyAnswer exampleAnswerApplication).1 = GapType.application ∧
    (∀ (topic : String) (answers : List String),
      (analyzeAnswers topic answers).analyses.map AnswerAnalysis.gap =
        answers.map fun a => (classifyAnswer a).1) := by
  refine ⟨?_, by decide, by decide, ?_⟩
  · intro a
    refine ⟨fun h => by simp [classifyAnswer, h], fun h1 h2 => ?_,
      fun h1 h2 h3 => ?_, fun h1 h2 h3 => ?_⟩
    · simp [classifyAnswer, h1, h2]
    · simp [classifyAnswer, h1, h2, h3]
    · simp [classifyAnswer, h1, h2, h3]
  · intro topic answers
    exact enumFrom_gaps 0 answers

/-- Witness for C4: the short answer `"ok"` is classified `terminology`
through the first rule of the decision list. -/
theorem C4_decision_list_witness :
    (classifyAnswer "ok").1 = GapType.terminology :=
  (C4_decision_list.1 "ok").1 (by decide)

/-- Claim C5: for a non-empty analysis list, `pickPrimaryGap` returns a
category of maximal occurrence count, and among the categories attaining
that count the one earliest in the fixed precedence order
terminology, conceptual, application, unknown. -/
theorem C5_primary_gap :
    ∀ analyses : List AnswerAnalysis, analyses ≠ [] →
      (∀ g, countGap g analyses ≤ countGap (pickPrimaryGap analyses) analyses) ∧
      (∀ g, countGap g analyses = countGap (pickPrimaryGap analyses) analyses →
        gapRank (pickPrimaryGap analyses) ≤ gapRank g) := by
  intro analyses _
  have hcnt : ∀ g, countGap g analyses =
      gapCount4 (countGap .terminology analyses) (countGap .conceptual analyses)
        (countGap .application analyses) (countGap .unknown analyses) g := by
    intro g; cases g <;> rfl
  have h := pick4_spec (countGap .terminology analyses) (countGap .conceptual analyses)
    (countGap .application analyses) (countGap .unknown analyses)
  constructor
  · intro g
    rw [hcnt g, hcnt (pickPrimaryGap analyses)]
    exact h.1 g
  · intro g hg
    rw [hcnt g, hcnt (pickPrimaryGap analyses)] at hg
    exact h.2 g hg

/-- Witness for C5 on a terminology/conceptual tie: the earlier category in
the precedence order wins. -/
theorem C5_primary_gap_witness :
    countGap GapType.conceptual exAnalyses ≤
      countGap (pickPrimaryGap exAnalyses) exAnalyses ∧
    gapRank (pickPrimaryGap exAnalyses) ≤ gapRank GapType.conceptual :=
  ⟨(C5_primary_gap exAnalyses (by decide)).1 GapType.conceptual,
   (C5_primary_gap exAnalyses (by decide)).2 GapType.conceptual (by decide)⟩

/-- Claim C6: `applyTutorPolicy` is idempotent — applying the policy twice
with the same context equals applying it once, for every response and
context (in particular for already-normalized responses). -/
theorem C6_policy_idempotent :
    ∀ (ctx : TutorPolicyContext) (r : MCPResponse),
      applyTutorPolicy (applyTutorPolicy r ctx) ctx = applyTutorPolicy r ctx := by
  intro ctx r
  by_cases hs : suspicious (stringifyOutput r.output)
  · have h1 : applyTutorPolicy r ctx = redirectResponse ctx.toolName := by
      unfold applyTutorPolicy applyAntiVibeGuardrails
      rw [stringify_ensureDefaults, if_pos hs]
      rfl
    rw [h1]
    exact applyTutorPolicy_of_normalized _ ctx (redirect_checkpoints_ne _)
      (redirect_note_not_blank _) (redirect_not_suspicious _) rfl
  · have h1 : applyTutorPolicy r ctx =
        { ensureDefaults r with
          hintLadder := some ((ensureDefaults r).hintLadder.getD defaultHintLadder) } := by
      unfold applyTutorPolicy applyAntiVibeGuardrails
      rw [stringify_ensureDefaults, if_neg hs]
    rw [h1]
    exact applyTutorPolicy_of_normalized _ ctx (ensureDefaults_checkpoints_ne r)
      (ensureDefaults_note_not_blank r) hs rfl

/-- Claim C7: dispatching a request whose tool name is not in the registry
returns a response with null output, empty checkpoints, and a tutor note
containing the unknown tool name. -/
theorem C7_unknown_tool :
    ∀ (α : Type) (getTool : String → Option (MCPTool α)) (req : MCPRequest α),
      getTool req.toolName = none →
      (handleMCPRequest getTool req).output = .onull ∧
      (handleMCPRequest getTool req).checkpoints = [] ∧
      ∃ s, (handleMCPRequest getTool req).tutorNotes = some s ∧
        req.toolName.data <:+: s.data := by
  intro α getTool req h
  unfold handleMCPRequest
  rw [h]
  exact ⟨rfl, rfl, "Unknown tool: " ++ req.toolName, rfl,
    ⟨"Unknown tool: ".data, [], by simp⟩⟩

/-- Witness for C7 at a concrete empty registry and unknown tool name. -/
theorem C7_unknown_tool_witness :
    (handleMCPRequest emptyRegistry unknownToolReq).output = .onull ∧
    (handleMCPRequest emptyRegistry unknownToolReq).checkpoints = [] ∧
    ∃ s, (handleMCPRequest emptyRegistry unknownToolReq).tutorNotes = some s ∧
      unknownToolReq.toolName.data <:+: s.data :=
  C7_unknown_tool Unit emptyRegistry unknownToolReq rfl

/-- Counterexample to claim C8: on `"a;\n\nb;"` the guardrail ratio
`countCodeLikeLines / max(1, lineCount)` (2/3) differs from
code-like-lines / non-blank-lines (2/2), so the ratio's denominator is not
the number of non-blank lines. -/
theorem C8_denominator_counterexample :
    ¬ (countCodeLikeLines exampleBlankLineText * nonBlankLineCount exampleBlankLineText =
       codeLikeLineCountSpec exampleBlankLineText *
         max 1 (lineCount exampleBlankLineText)) := by
  decide

/-- Amended claim C8: `codeLikeRatio` equals the number of code-like lines
divided by `max 1 (total newline-delimited line count)` — blank lines count
in the denominator — where a code-like line is a non-blank line that starts
with an import/export/declaration keyword, contains an arrow-function
marker, ends with an opening brace or statement terminator, or contains a
semicolon. -/
theorem C8_ratio_amended :
    ∀ text : String,
      countCodeLikeLines text = codeLikeLineCountSpec text ∧
      (suspicious text ↔
        ((codeBlockCount text ≥ 2 ∧ lineCount text > 60) ∨
         (lineCount text > 120 ∧
           100 * countCodeLikeLines text > 35 * max 1 (lineCount text)))) := by
  intro text
  exact ⟨countAux_eq_filter _, Iff.rfl⟩

/-- Counterexample to claim C9: the unknown-tool response does not satisfy
the post-policy invariants — its checkpoints list is empty and it carries no
hint ladder. -/
theorem C9_counterexample :
    ¬ ((handleMCPRequest emptyRegistry unknownToolReq).checkpoints ≠ [] ∧
       (handleMCPRequest emptyRegistry unknownToolReq).hintLadder.isSome = true) := by
  decide

/-- Amended claim C9: the response produced on the unknown-tool dispatch
path, returned before the Tutor Policy Engine runs, violates the post-policy
invariants: its checkpoints list is empty and its hint ladder is absent. -/
theorem C9_unknown_tool_shape :
    ∀ (α : Type) (getTool : String → Option (MCPTool α)) (req : MCPRequest α),
      getTool req.toolName = none →
      (handleMCPRequest getTool req).checkpoints = [] ∧
      (handleMCPRequest getTool req).hintLadder = none := by
  intro α getTool req h
  unfold handleMCPRequest
  rw [h]
  exact ⟨rfl, rfl⟩

/-- Witness for the amended C9 at a concrete unknown-tool dispatch. -/
theorem C9_unknown_tool_shape_witness :
    (handleMCPRequest emptyRegistry unknownToolReq).checkpoints = [] ∧
    (handleMCPRequest emptyRegistry unknownToolReq).hintLadder = none :=
  C9_unknown_tool_shape Unit emptyRegistry unknownToolReq rfl

/-- Claim C10: keyword matching is plain substring containment on the
lowercased answer, so any answer of lowercased length at least 15 containing
`because` is classified `application` (never `conceptual`): `use` occurs
inside `because` and the application rule is checked first. -/
theorem C10_because_is_application :
    ∀ a : String, ¬ (jsToLower a).length < 15 →
      "because".data <:+: (jsToLower a).data →
      (classifyAnswer a).1 = GapType.application := by
  intro a h1 h2
  have huse : "use".data <:+: (jsToLower a).data :=
    List.IsInfix.trans (by decide) h2
  have happ : containsAny (jsToLower a) KEYWORD_MAP_application = true := by
    simp only [containsAny, KEYWORD_MAP_application, List.any_cons, List.any_nil,
      Bool.or_eq_true, decide_eq_true_eq]
    exact Or.inl huse
  simp [classifyAnswer, h1, happ]

/-- Witness for C10: a long answer containing `because` lands in
`application`. -/
theorem C10_because_is_application_witness :
    (classifyAnswer exampleAnswerBecause).1 = GapType.application :=
  C10_because_is_application exampleAnswerBecause (by decide) (by decide)
